import Mathlib

/-!
Verification of the rule-search-and-delete workflow of the
python-nftables-tutorial repository (`nft-delete-rule.py`,
`nft-read-counters-and-quotas.py`).

The scripts operate on the Python data structures produced by
`json.loads` on libnftables JSON output.  We embed those values as
`PyVal` below: JSON `null` becomes Python `None` (`PyVal.vNone`),
numbers are modelled as integers (the documents handled by these
scripts only carry integers), objects become Python dicts, modelled as
association lists with first-key-wins lookup.

Python exceptions (KeyError from `d[k]`, AttributeError from `.get` on
a non-dict, TypeError from iterating or subscripting a non-list) are
modelled by returning `Option.none`; iterating a value that is not a
list is modelled as an error (strings and dicts are iterable in Python,
but in these scripts every element produced that way would immediately
raise on the next operation, except for empty ones which never occur in
the documents the claims quantify over).
-/

/-- A Python value as produced by `json.loads`. -/
inductive PyVal : Type where
  | vNone : PyVal
  | vBool (b : Bool) : PyVal
  | vInt (n : Int) : PyVal
  | vStr (s : String) : PyVal
  | vList (elems : List PyVal) : PyVal
  | vDict (fields : List (String × PyVal)) : PyVal

/-- Dict lookup: `some v` when the key is present (its stored value may be
`vNone`, i.e. JSON `null`), `none` when the key is absent. -/
def lookupField : List (String × PyVal) → String → Option PyVal
  | [], _ => Option.none
  | (k, v) :: rest, key => if k == key then some v else lookupField rest key

/-- Python `d.get(k)`: the stored value when present, Python `None` when
absent.  Note that a stored JSON `null` and an absent key are
indistinguishable through `.get`. -/
def pyGet (fields : List (String × PyVal)) (key : String) : PyVal :=
  (lookupField fields key).getD PyVal.vNone

/-- Python truthiness of a decoded JSON value (`if not x: ...`). -/
def PyVal.truthy : PyVal → Bool
  | .vNone => false
  | .vBool b => b
  | .vInt n => n != 0
  | .vStr s => !s.isEmpty
  | .vList l => !l.isEmpty
  | .vDict f => !f.isEmpty

/-- Loop body of `rule_has_counter` (nft-delete-rule.py lines 177-180):
`for expr in rule["expr"]: if expr.get("counter") is not None: return True`,
falling through to `return False`.  An element that is not a dict makes
`.get` raise (`Option.none`). -/
def exprLoop : List PyVal → Option Bool
  | [] => some false
  | e :: rest =>
    match e with
    | .vDict f =>
      match lookupField f "counter" with
      | some .vNone => exprLoop rest
      | some _ => some true
      | Option.none => exprLoop rest
    | _ => Option.none

/-- `rule_has_counter` (nft-delete-rule.py lines 176-180).  `rule["expr"]`
raises when `rule` is not a dict or has no `"expr"` key; iterating a
non-list raises. -/
def rule_has_counter (rule : PyVal) : Option Bool :=
  match rule with
  | .vDict f =>
    match lookupField f "expr" with
    | some (.vList es) => exprLoop es
    | _ => Option.none
  | _ => Option.none

/-- Loop of `search_rules_with_counter` (nft-delete-rule.py lines 184-203):
for each object, `rule = object.get("rule")`; falsy rules are skipped;
rules without a counter are skipped; otherwise a fresh selector dict
`dict(family=..., table=..., chain=..., handle=...)` is appended. -/
def searchLoop : List PyVal → Option (List PyVal)
  | [] => some []
  | st :: rest =>
    match st with
    | .vDict f =>
      let rule := pyGet f "rule"
      if rule.truthy then
        match rule_has_counter rule with
        | Option.none => Option.none
        | some false => searchLoop rest
        | some true =>
          match rule with
          | .vDict rf =>
            match lookupField rf "family", lookupField rf "table",
                  lookupField rf "chain", lookupField rf "handle" with
            | some fam, some tab, some ch, some h =>
              (searchLoop rest).map
                (fun r => .vDict [("family", fam), ("table", tab),
                                  ("chain", ch), ("handle", h)] :: r)
            | _, _, _, _ => Option.none
          | _ => Option.none
      else searchLoop rest
    | _ => Option.none

/-- `search_rules_with_counter` (nft-delete-rule.py lines 183-203):
iterates `data_structure["nftables"]`. -/
def search_rules_with_counter (data : PyVal) : Option (List PyVal) :=
  match data with
  | .vDict f =>
    match lookupField f "nftables" with
    | some (.vList objs) => searchLoop objs
    | _ => Option.none
  | _ => Option.none

/-- The metadata entry `dict(metainfo=dict(json_schema_version=1))`
appended first in nft-delete-rule.py line 225. -/
def metainfo_entry : PyVal :=
  .vDict [("metainfo", .vDict [("json_schema_version", .vInt 1)])]

/-- One deletion directive `dict(delete=rule_info)`
(nft-delete-rule.py line 228). -/
def delete_directive (s : PyVal) : PyVal := .vDict [("delete", s)]

/-- `build_delete_command`: the document built inline in `main`
(nft-delete-rule.py lines 223-228): `{"nftables": [metainfo_entry] ++
[dict(delete=s) for s in selectors]}`. -/
def build_delete_command (selectors : List PyVal) : PyVal :=
  .vDict [("nftables", .vList (metainfo_entry :: selectors.map delete_directive))]

/-- The sequence of entries of a command/ruleset document: its
`"nftables"` list (empty when the document is not of that shape). -/
def document_entries (d : PyVal) : List PyVal :=
  match d with
  | .vDict f =>
    match lookupField f "nftables" with
    | some (.vList es) => es
    | _ => []
  | _ => []

/-- The deletion directives of a DeleteCommandDocument: every entry after
the leading metadata entry. -/
def delete_directives (d : PyVal) : List PyVal := (document_entries d).drop 1

/-- Project a deletion directive back to the RuleSelector it wraps. -/
def directive_selector (dir : PyVal) : PyVal :=
  match dir with
  | .vDict f => pyGet f "delete"
  | _ => .vNone

/-- The search-then-build pipeline of `main` (nft-delete-rule.py lines
220-228): `search_rules_with_counter` followed by the delete-command
construction. -/
def delete_pipeline (d : PyVal) : Option PyVal :=
  (search_rules_with_counter d).map build_delete_command

/-- `_find_objects` (nft-read-counters-and-quotas.py lines 29-31):
`[o[type] for o in ruleset if type in o]`.  An element that is not a
dict is modelled as an error (see the header note on iterables). -/
def find_objects : List PyVal → String → Option (List PyVal)
  | [], _ => some []
  | o :: rest, ty =>
    match o with
    | .vDict f =>
      match lookupField f ty with
      | some v => (find_objects rest ty).map (fun l => v :: l)
      | Option.none => find_objects rest ty
    | _ => Option.none

/-- Loop of the schema-version check in `nft_cmd`
(nft-read-counters-and-quotas.py lines 52-55): for each metainfo
payload, evaluate `metainfo["json_schema_version"] > 1` and print a
warning when it holds.  We record whether any warning was printed.
`m["json_schema_version"]` raises when `m` is not a dict or lacks the
key; comparing a non-number to `1` raises (Python `bool` compares as
0/1 and never exceeds 1). -/
def checkMetainfos : List PyVal → Option Bool
  | [] => some false
  | m :: rest =>
    match m with
    | .vDict g =>
      match lookupField g "json_schema_version" with
      | some (.vInt v) => (checkMetainfos rest).map (fun w => decide (v > 1) || w)
      | some (.vBool _) => (checkMetainfos rest).map (fun w => false || w)
      | _ => Option.none
    | _ => Option.none

/-- The post-decode portion of `nft_cmd`
(nft-read-counters-and-quotas.py lines 50-56): run the schema-version
warning loop over the decoded ruleset and return the ruleset.  The
result pairs the warned flag with the returned ruleset; `Option.none`
models an uncaught exception.  No branch of this portion calls
`exit`. -/
def nft_cmd_schema_check (ruleset : List PyVal) : Option (Bool × List PyVal) :=
  match find_objects ruleset "metainfo" with
  | some metas => (checkMetainfos metas).map (fun w => (w, ruleset))
  | Option.none => Option.none

/-! ### Spec-side definitions

These follow the specification's words (RulesetDocument, tagged-union
entries, `has_counter`, RuleSelector projection) and are compared with
the source-derived functions above. -/

/-- Spec's words: an ExpressionEntry tagged `"counter"` (value
irrelevant to matching). -/
def counter_tagged (e : PyVal) : Bool :=
  match e with
  | .vDict f => (lookupField f "counter").isSome
  | _ => false

/-- An ExpressionEntry whose `"counter"` tag carries a non-null value
(what the source predicate actually tests). -/
def counter_tagged_nonnull (e : PyVal) : Bool :=
  match e with
  | .vDict f =>
    match lookupField f "counter" with
    | some .vNone => false
    | some _ => true
    | Option.none => false
  | _ => false

/-- Does some entry of the rule's `expr` sequence satisfy `p`? -/
def expr_any (p : PyVal → Bool) (rule : PyVal) : Bool :=
  match rule with
  | .vDict f =>
    match lookupField f "expr" with
    | some (.vList es) => es.any p
    | _ => false
  | _ => false

/-- Spec's default predicate: `has_counter(rule) = exists e in rule.expr
such that e is tagged "counter"`. -/
def has_counter (rule : PyVal) : Bool := expr_any counter_tagged rule

/-- The amended predicate: some `expr` entry carries a `"counter"` key
with a non-null value. -/
def has_counter_nonnull (rule : PyVal) : Bool := expr_any counter_tagged_nonnull rule

/-- Project a RuleEntry down to its RuleSelector
(family, table, chain, handle). -/
def selector_of (rule : PyVal) : PyVal :=
  match rule with
  | .vDict f =>
    .vDict [("family", pyGet f "family"), ("table", pyGet f "table"),
            ("chain", pyGet f "chain"), ("handle", pyGet f "handle")]
  | _ => .vNone

/-- One step of the spec's `find_matching_rules` scan: a statement
tagged `"rule"` whose payload satisfies the predicate contributes its
RuleSelector; every other statement contributes nothing. -/
def spec_select (pred : PyVal → Bool) (st : PyVal) : Option PyVal :=
  match st with
  | .vDict g =>
    match lookupField g "rule" with
    | some r => if pred r then some (selector_of r) else Option.none
    | Option.none => Option.none
  | _ => Option.none

/-- Spec's words: `find_matching_rules(ruleset, predicate)` — scan every
statement entry in document order, project matching rules to
RuleSelectors, preserving relative order. -/
def spec_find_matching_rules (d : PyVal) (pred : PyVal → Bool) : List PyVal :=
  match d with
  | .vDict f =>
    match lookupField f "nftables" with
    | some (.vList sts) => sts.filterMap (spec_select pred)
    | _ => []
  | _ => []

/-- The payloads `o[ty]` of the entries of `R` that contain the key
`ty`, in order (the comprehension of `_find_objects`, spec side). -/
def spec_find_objects (R : List PyVal) (ty : String) : List PyVal :=
  R.filterMap (fun o =>
    match o with
    | .vDict f => lookupField f ty
    | _ => Option.none)

/-! ### Well-formedness

The precondition the spec places on inputs: statements are tagged-union
objects, and every statement tagged `"rule"` carries `family`, `table`,
`chain`, `handle` and an `expr` sequence of tagged entries. -/

/-- Is the value a dict (a tagged-union entry)? -/
def isDict : PyVal → Bool
  | .vDict _ => true
  | _ => false

/-- A rule payload carrying a well-formed `expr`: a dict whose `expr`
key holds a list of tagged entries. -/
def wfRuleExpr : PyVal → Bool
  | .vDict f =>
    match lookupField f "expr" with
    | some (.vList es) => es.all isDict
    | _ => false
  | _ => false

/-- A well-formed RuleEntry payload: a dict carrying `family`, `table`,
`chain`, `handle` and an `expr` list of tagged entries. -/
def wfRule (r : PyVal) : Bool :=
  match r with
  | .vDict f =>
    (lookupField f "family").isSome && (lookupField f "table").isSome &&
    (lookupField f "chain").isSome && (lookupField f "handle").isSome &&
    wfRuleExpr (.vDict f)
  | _ => false

/-- A well-formed statement: a dict whose `"rule"` payload, when the tag
is present, is a well-formed RuleEntry. -/
def wfStatement : PyVal → Bool
  | .vDict g =>
    match lookupField g "rule" with
    | some r => wfRule r
    | Option.none => true
  | _ => false

/-- A well-formed RulesetDocument: a dict whose `"nftables"` key holds a
list of well-formed statements. -/
def wfRuleset : PyVal → Bool
  | .vDict f =>
    match lookupField f "nftables" with
    | some (.vList sts) => sts.all wfStatement
    | _ => false
  | _ => false

/-! ### Core lemmas -/

/-- On a sequence of tagged entries, the `rule_has_counter` loop
terminates without error and decides exactly "some entry carries a
non-null `counter` value". -/
theorem exprLoop_eq (es : List PyVal) (h : es.all isDict = true) :
    exprLoop es = some (es.any counter_tagged_nonnull) := by
  induction es with
  | nil => rfl
  | cons e rest ih =>
    rw [List.all_cons, Bool.and_eq_true] at h
    obtain ⟨he, hrest⟩ := h
    cases e
    case vDict f =>
      simp only [exprLoop, List.any_cons, counter_tagged_nonnull]
      cases hc : lookupField f "counter" with
      | none => simp [ih hrest]
      | some v => cases v <;> simp [ih hrest]
    all_goals simp [isDict] at he

/-- A well-formed RuleEntry payload is truthy (it is a nonempty dict). -/
theorem wfRule_truthy (r : PyVal) (h : wfRule r = true) : r.truthy = true := by
  cases r
  case vDict f =>
    cases f with
    | nil => simp [wfRule, lookupField] at h
    | cons kv rest => simp [PyVal.truthy]
  all_goals simp [wfRule] at h

/-- A well-formed RuleEntry has a well-formed `expr`. -/
theorem wfRule_to_expr (r : PyVal) (h : wfRule r = true) : wfRuleExpr r = true := by
  cases r
  case vDict f =>
    simp only [wfRule, Bool.and_eq_true] at h
    exact h.2
  all_goals simp [wfRule] at h

/-- On a rule payload with a well-formed `expr`, `rule_has_counter`
cannot raise and computes the non-null-counter predicate. -/
theorem rule_has_counter_eq (r : PyVal) (h : wfRuleExpr r = true) :
    rule_has_counter r = some (has_counter_nonnull r) := by
  cases r
  case vDict f =>
    simp only [wfRuleExpr] at h
    split at h
    · rename_i es heq
      simp only [rule_has_counter, has_counter_nonnull, expr_any, heq]
      exact exprLoop_eq es h
    · simp at h
  all_goals simp [wfRuleExpr] at h

/-- On a list of well-formed statements the search loop cannot raise and
returns, in order, the RuleSelector of each rule whose `expr` carries a
non-null `counter` entry. -/
theorem searchLoop_eq (sts : List PyVal) (h : sts.all wfStatement = true) :
    searchLoop sts = some (sts.filterMap (spec_select has_counter_nonnull)) := by
  induction sts with
  | nil => rfl
  | cons st rest ih =>
    rw [List.all_cons, Bool.and_eq_true] at h
    obtain ⟨hst, hrest⟩ := h
    cases st
    case vDict g =>
      simp only [wfStatement] at hst
      simp only [searchLoop, List.filterMap_cons, spec_select]
      split at hst
      · rename_i r hr
        have htr : r.truthy = true := wfRule_truthy r hst
        have hrc : rule_has_counter r = some (has_counter_nonnull r) :=
          rule_has_counter_eq r (wfRule_to_expr r hst)
        simp only [pyGet, hr, Option.getD_some, htr, if_true, hrc]
        clear hrc htr
        cases hcnt : has_counter_nonnull r with
        | false => simp [ih hrest]
        | true =>
          cases r
          case vDict rf =>
            simp only [wfRule, Bool.and_eq_true] at hst
            obtain ⟨⟨⟨⟨h1, h2⟩, h3⟩, h4⟩, -⟩ := hst
            obtain ⟨fam, hfam⟩ := Option.isSome_iff_exists.mp h1
            obtain ⟨tab, htab⟩ := Option.isSome_iff_exists.mp h2
            obtain ⟨ch, hch⟩ := Option.isSome_iff_exists.mp h3
            obtain ⟨hdl, hhd⟩ := Option.isSome_iff_exists.mp h4
            simp [hfam, htab, hch, hhd, ih hrest, selector_of, pyGet]
          all_goals simp [wfRule] at hst
      · rename_i hr
        simp [pyGet, hr, PyVal.truthy, ih hrest]
    all_goals simp [wfStatement] at hst

/-- On a well-formed RulesetDocument, `search_rules_with_counter`
returns exactly the spec's scan with the non-null-counter predicate. -/
theorem search_eq_spec (d : PyVal) (h : wfRuleset d = true) :
    search_rules_with_counter d = some (spec_find_matching_rules d has_counter_nonnull) := by
  cases d
  case vDict f =>
    simp only [wfRuleset] at h
    split at h
    · rename_i sts heq
      simp only [search_rules_with_counter, spec_find_matching_rules, heq]
      exact searchLoop_eq sts h
    · simp at h
  all_goals simp [wfRuleset] at h

/-- A statement entry that is a tagged-union object not tagged
`"rule"`. -/
def statement_not_rule (st : PyVal) : Bool :=
  match st with
  | .vDict g => (lookupField g "rule").isNone
  | _ => false

/-- A metainfo payload the version check can read: a dict whose
`json_schema_version` is an integer. -/
def wf_metainfo_payload (m : PyVal) : Bool :=
  match m with
  | .vDict g =>
    match lookupField g "json_schema_version" with
    | some (.vInt _) => true
    | _ => false
  | _ => false

/-- A metainfo payload carrying a schema version strictly greater
than 1. -/
def high_version (m : PyVal) : Bool :=
  match m with
  | .vDict g =>
    match lookupField g "json_schema_version" with
    | some (.vInt v) => decide (v > 1)
    | _ => false
  | _ => false

/-- The search loop runs through statements without a `"rule"` tag
without error and collects nothing. -/
theorem searchLoop_no_rules (sts : List PyVal) (h : sts.all statement_not_rule = true) :
    searchLoop sts = some [] := by
  induction sts with
  | nil => rfl
  | cons st rest ih =>
    rw [List.all_cons, Bool.and_eq_true] at h
    obtain ⟨hst, hrest⟩ := h
    cases st
    case vDict g =>
      simp only [statement_not_rule, Option.isNone_iff_eq_none] at hst
      simp [searchLoop, pyGet, hst, PyVal.truthy, ih hrest]
    all_goals simp [statement_not_rule] at hst

/-- On a sequence of objects, `_find_objects` cannot raise and returns
exactly the comprehension's payloads, in order. -/
theorem find_objects_eq (R : List PyVal) (ty : String) (h : R.all isDict = true) :
    find_objects R ty = some (spec_find_objects R ty) := by
  induction R with
  | nil => rfl
  | cons o rest ih =>
    rw [List.all_cons, Bool.and_eq_true] at h
    obtain ⟨ho, hrest⟩ := h
    cases o
    case vDict f =>
      simp only [find_objects, spec_find_objects, List.filterMap_cons]
      cases hc : lookupField f ty with
      | none => simpa [spec_find_objects] using ih hrest
      | some v => simp [spec_find_objects, ih hrest]
    all_goals simp [isDict] at ho

/-- On well-formed metainfo payloads the version-check loop cannot
raise and reports whether any payload carries a version above 1. -/
theorem checkMetainfos_eq (metas : List PyVal) (h : metas.all wf_metainfo_payload = true) :
    checkMetainfos metas = some (metas.any high_version) := by
  induction metas with
  | nil => rfl
  | cons m rest ih =>
    rw [List.all_cons, Bool.and_eq_true] at h
    obtain ⟨hm, hrest⟩ := h
    cases m
    case vDict g =>
      simp only [wf_metainfo_payload] at hm
      simp only [checkMetainfos, List.any_cons, high_version]
      split at hm
      · rename_i v heq
        simp [heq, ih hrest]
      · simp at hm
    all_goals simp [wf_metainfo_payload] at hm

/-! ### Concrete documents -/

/-- The counter rule of the repository's own ruleset literal
`NFTABLES_RULESET_JSON` (nft-delete-rule.py lines 91-107): its `expr`
holds a null-valued `"counter"` entry. -/
def literal_counter_rule : PyVal :=
  .vDict [("family", .vStr "inet"), ("table", .vStr "mytable"),
          ("chain", .vStr "mychain"),
          ("expr", .vList
            [.vDict [("match", .vDict
               [("op", .vStr "=="),
                ("left", .vDict [("payload", .vDict
                   [("protocol", .vStr "tcp"), ("field", .vStr "dport")])]),
                ("right", .vInt 22)])],
             .vDict [("counter", .vNone)],
             .vDict [("accept", .vNone)]])]

/-- A well-formed RulesetDocument whose single rule is the literal's
counter rule, with the handle field a listing would carry. -/
def null_counter_doc : PyVal :=
  .vDict [("nftables", .vList
    [.vDict [("rule",
      .vDict [("family", .vStr "inet"), ("table", .vStr "mytable"),
              ("chain", .vStr "mychain"), ("handle", .vInt 3),
              ("expr", .vList [.vDict [("counter", .vNone)],
                               .vDict [("accept", .vNone)]])])]])]

/-- The selector of the rule of `null_counter_doc`. -/
def null_counter_selector : PyVal :=
  .vDict [("family", .vStr "inet"), ("table", .vStr "mytable"),
          ("chain", .vStr "mychain"), ("handle", .vInt 3)]

/-- A counter rule as the kernel lists it back: the `"counter"` tag
carries the packet/byte counts as a dict. -/
def kernel_counter_rule : PyVal :=
  .vDict [("family", .vStr "inet"), ("table", .vStr "mytable"),
          ("chain", .vStr "mychain"), ("handle", .vInt 2),
          ("expr", .vList
            [.vDict [("counter", .vDict [("packets", .vInt 0), ("bytes", .vInt 0)])],
             .vDict [("accept", .vNone)]])]

/-- The tutorial scenario as listed back by the kernel (spec section
8): metainfo, table and chain entries, then three rules with handles
1-3 in inet/mytable/mychain, of which only handle 2 carries a
counter. -/
def scenario_doc : PyVal :=
  .vDict [("nftables", .vList
    [ .vDict [("metainfo", .vDict [("json_schema_version", .vInt 1)])],
      .vDict [("table", .vDict [("family", .vStr "inet"), ("name", .vStr "mytable"),
                                ("handle", .vInt 1)])],
      .vDict [("chain", .vDict [("family", .vStr "inet"), ("table", .vStr "mytable"),
                                ("name", .vStr "mychain"), ("handle", .vInt 1)])],
      .vDict [("rule", .vDict [("family", .vStr "inet"), ("table", .vStr "mytable"),
        ("chain", .vStr "mychain"), ("handle", .vInt 1),
        ("expr", .vList [.vDict [("accept", .vNone)]])])],
      .vDict [("rule", kernel_counter_rule)],
      .vDict [("rule", .vDict [("family", .vStr "inet"), ("table", .vStr "mytable"),
        ("chain", .vStr "mychain"), ("handle", .vInt 3),
        ("expr", .vList [.vDict [("accept", .vNone)]])])]])]

/-- The selector of the counter rule of `scenario_doc`. -/
def scenario_selector : PyVal :=
  .vDict [("family", .vStr "inet"), ("table", .vStr "mytable"),
          ("chain", .vStr "mychain"), ("handle", .vInt 2)]

/-- The statements of a listing with no rule entries at all. -/
def no_rules_statements : List PyVal :=
  [ .vDict [("metainfo", .vDict [("json_schema_version", .vInt 1)])],
    .vDict [("table", .vDict [("family", .vStr "inet"), ("name", .vStr "mytable")])],
    .vDict [("chain", .vDict [("family", .vStr "inet"), ("table", .vStr "mytable"),
                              ("name", .vStr "mychain")])]]

/-- The fields of a RulesetDocument with zero rule entries. -/
def no_rules_doc_fields : List (String × PyVal) :=
  [("nftables", .vList no_rules_statements)]

/-- A decoded ruleset whose metainfo carries schema version 2. -/
def high_version_ruleset : List PyVal :=
  [.vDict [("metainfo", .vDict [("version", .vStr "1.0.2"),
                                ("json_schema_version", .vInt 2)])]]

/-- The metainfo payloads of `high_version_ruleset`. -/
def high_version_metas : List PyVal :=
  [.vDict [("version", .vStr "1.0.2"), ("json_schema_version", .vInt 2)]]

/-- A decoded listing of counter objects, as consumed by
`_find_objects(ruleset, "counter")`. -/
def counters_ruleset : List PyVal :=
  [ .vDict [("metainfo", .vDict [("json_schema_version", .vInt 1)])],
    .vDict [("counter", .vDict [("family", .vStr "ip"), ("name", .vStr "mycounter"),
                                ("table", .vStr "mytable"),
                                ("packets", .vInt 0), ("bytes", .vInt 0)])],
    .vDict [("counter", .vDict [("family", .vStr "ip"), ("name", .vStr "other"),
                                ("table", .vStr "mytable"),
                                ("packets", .vInt 7), ("bytes", .vInt 420)])]]

/-! ### Claim theorems -/

/-- C1 (counterexample): the claim fails as stated.  `null_counter_doc`
is a well-formed RulesetDocument whose single rule's `expr` contains an
entry tagged `"counter"` (with a null value, exactly as in the
repository's own ruleset literal), so the spec's
`find_matching_rules(D, has_counter)` returns that rule's selector; but
`search_rules_with_counter` returns the empty list. -/
theorem search_rules_null_counter_divergence :
    wfRuleset null_counter_doc = true ∧
    spec_find_matching_rules null_counter_doc has_counter = [null_counter_selector] ∧
    search_rules_with_counter null_counter_doc = some [] ∧
    ([] : List PyVal) ≠ [null_counter_selector] :=
  ⟨rfl, rfl, rfl, fun hx => List.noConfusion hx⟩

/-- C1 (amended): for every well-formed RulesetDocument,
`search_rules_with_counter` returns exactly the RuleSelectors (family,
table, chain, handle) of the rule entries whose `expr` contains at
least one `"counter"`-tagged entry carrying a non-null value, one
selector per matching rule, in document order. -/
theorem search_rules_with_counter_amended (d : PyVal) (h : wfRuleset d = true) :
    search_rules_with_counter d = some (spec_find_matching_rules d has_counter_nonnull) :=
  search_eq_spec d h

/-- Witness for C1: on the tutorial scenario listing the amended
theorem applies and yields exactly the selector of the counter rule
(handle 2). -/
theorem search_rules_with_counter_amended_witness :
    wfRuleset scenario_doc = true ∧
    search_rules_with_counter scenario_doc = some [scenario_selector] :=
  ⟨rfl, (search_rules_with_counter_amended scenario_doc rfl).trans rfl⟩

/-- C2 (counterexample): the claim fails as stated.  The counter rule
of the repository's own ruleset literal has an `expr` entry tagged
`"counter"` whose value is null, yet `rule_has_counter` returns
`False`, not `True`. -/
theorem rule_has_counter_null_divergence :
    has_counter literal_counter_rule = true ∧
    rule_has_counter literal_counter_rule = some false ∧
    (some false : Option Bool) ≠ some true :=
  ⟨rfl, rfl, by simp⟩

/-- C2 (amended): on any rule payload whose `expr` is a sequence of
tagged entries, `rule_has_counter` returns `True` exactly when some
`expr` entry carries a `"counter"` key with a non-null value; in
particular a null-valued `"counter"` tag, as in the repository's
ruleset literal, does not count as a match. -/
theorem rule_has_counter_amended (r : PyVal) (h : wfRuleExpr r = true) :
    rule_has_counter r = some (has_counter_nonnull r) :=
  rule_has_counter_eq r h

/-- Witness for C2: the amended theorem applied to a kernel-listed
counter rule (non-null counter value) evaluates to `True`. -/
theorem rule_has_counter_amended_witness :
    wfRuleExpr kernel_counter_rule = true ∧
    rule_has_counter kernel_counter_rule = some true :=
  ⟨rfl, (rule_has_counter_amended kernel_counter_rule rfl).trans rfl⟩

/-- C3: `build_delete_command` emits one deletion directive per input
selector, preserving the count, the order and the field values of each
selector exactly: projecting each output directive back to its
RuleSelector reproduces the input sequence. -/
theorem build_delete_command_roundtrip (S : List PyVal) :
    (delete_directives (build_delete_command S)).map directive_selector = S ∧
    (delete_directives (build_delete_command S)).length = S.length := by
  have hd : delete_directives (build_delete_command S) = S.map delete_directive := by
    simp [delete_directives, document_entries, build_delete_command, lookupField]
  rw [hd]
  constructor
  · rw [List.map_map]
    have hid : directive_selector ∘ delete_directive = id := by
      funext s
      simp [directive_selector, delete_directive, pyGet, lookupField]
    rw [hid, List.map_id]
  · rw [List.length_map]

/-- C4: the DeleteCommandDocument built by `build_delete_command`
always carries the metadata entry (with json_schema_version 1) as its
first element, followed by the deletion directives; on the empty
selector sequence it contains exactly the metadata entry and zero
deletion directives. -/
theorem build_delete_command_metainfo_first (S : List PyVal) :
    document_entries (build_delete_command S) =
      metainfo_entry :: S.map delete_directive ∧
    document_entries (build_delete_command []) = [metainfo_entry] := by
  constructor
  · simp [document_entries, build_delete_command, lookupField]
  · simp [document_entries, build_delete_command, lookupField]

/-- C5: under the well-formedness precondition (every statement tagged
`"rule"` carries family, table, chain, handle and an `expr` sequence of
tagged entries), the search-then-build pipeline is total: no lookup
fails, no error branch is reachable, and a DeleteCommandDocument is
always produced. -/
theorem delete_pipeline_total (d : PyVal) (h : wfRuleset d = true) :
    ∃ doc, delete_pipeline d = some doc := by
  refine ⟨build_delete_command (spec_find_matching_rules d has_counter_nonnull), ?_⟩
  simp [delete_pipeline, search_eq_spec d h]

/-- Witness for C5: the pipeline applies to the tutorial scenario
listing. -/
theorem delete_pipeline_total_witness :
    wfRuleset scenario_doc = true ∧ ∃ doc, delete_pipeline scenario_doc = some doc :=
  ⟨rfl, delete_pipeline_total scenario_doc rfl⟩

/-- C6: statement entries not tagged `"rule"` (metainfo, table, chain,
...) are skipped by the scan without error and contribute nothing; on a
document with zero rule entries the result is the empty sequence. -/
theorem search_skips_non_rule_statements (f : List (String × PyVal)) (sts : List PyVal)
    (h1 : lookupField f "nftables" = some (.vList sts))
    (h2 : sts.all statement_not_rule = true) :
    search_rules_with_counter (.vDict f) = some [] := by
  simp [search_rules_with_counter, h1, searchLoop_no_rules sts h2]

/-- Witness for C6: a listing holding only metainfo, table and chain
statements yields the empty selector sequence. -/
theorem search_skips_non_rule_statements_witness :
    search_rules_with_counter (.vDict no_rules_doc_fields) = some [] :=
  search_skips_non_rule_statements no_rules_doc_fields no_rules_statements rfl rfl

/-- C7: when a metainfo entry of the decoded ruleset carries a
json_schema_version strictly greater than 1, the post-decode portion of
`nft_cmd` prints a warning and still returns the decoded ruleset
unchanged; a higher schema version never causes an error exit. -/
theorem schema_version_warns_not_fails (ruleset metas : List PyVal)
    (h1 : find_objects ruleset "metainfo" = some metas)
    (h2 : metas.all wf_metainfo_payload = true)
    (h3 : metas.any high_version = true) :
    nft_cmd_schema_check ruleset = some (true, ruleset) := by
  simp [nft_cmd_schema_check, h1, checkMetainfos_eq metas h2, h3]

/-- Witness for C7: a ruleset whose metainfo carries schema version 2
is returned with the warning flag set. -/
theorem schema_version_warns_not_fails_witness :
    nft_cmd_schema_check high_version_ruleset = some (true, high_version_ruleset) :=
  schema_version_warns_not_fails high_version_ruleset high_version_metas rfl rfl rfl

/-- C9: a statement whose `"rule"` key maps to a falsy payload (for
example the empty dict, or null) is treated like a non-rule statement:
the scan skips it without error and it contributes no selector, the
result being that of the remaining statements. -/
theorem falsy_rule_payload_skipped (g : List (String × PyVal)) (r : PyVal)
    (rest : List PyVal) (h1 : lookupField g "rule" = some r)
    (h2 : r.truthy = false) :
    searchLoop (.vDict g :: rest) = searchLoop rest := by
  simp [searchLoop, pyGet, h1, h2]

/-- Witness for C9: a statement carrying `"rule": {}` is skipped. -/
theorem falsy_rule_payload_skipped_witness :
    searchLoop [.vDict [("rule", .vDict [])]] = searchLoop [] :=
  falsy_rule_payload_skipped [("rule", .vDict [])] (.vDict []) [] rfl rfl

/-- C10: on a decoded ruleset sequence of objects and any tag string,
`_find_objects` returns exactly the payloads `o[ty]` of the entries
containing key `ty`, in the same relative order; entries lacking the
key contribute nothing. -/
theorem find_objects_exact (R : List PyVal) (ty : String) (h : R.all isDict = true) :
    find_objects R ty = some (spec_find_objects R ty) :=
  find_objects_eq R ty h

/-- Witness for C10: on a listing of two counter objects and one
metainfo entry, looking up `"counter"` returns the two counter payloads
in order and skips the metainfo entry. -/
theorem find_objects_exact_witness :
    counters_ruleset.all isDict = true ∧
    find_objects counters_ruleset "counter" =
      some [.vDict [("family", .vStr "ip"), ("name", .vStr "mycounter"),
                    ("table", .vStr "mytable"),
                    ("packets", .vInt 0), ("bytes", .vInt 0)],
            .vDict [("family", .vStr "ip"), ("name", .vStr "other"),
                    ("table", .vStr "mytable"),
                    ("packets", .vInt 7), ("bytes", .vInt 420)]] :=
  ⟨rfl, (find_objects_exact counters_ruleset "counter" rfl).trans rfl⟩
